import Mathlib

/-!
Shallow embedding of `folktables/acs.py` (ACS PUMS data source and task
definitions) and proofs of the specified properties.

Modelling choices:
* A table (pandas `DataFrame`) is a list of column names together with a list
  of rows; a row is a total valuation `String → Int` (column access `r['C']`
  is function application — the numeric PUMS codes are modelled as integers).
* Boolean-mask selection `df[df['C'] > k]` is `List.filter` on the rows with
  the column list unchanged; column selection `df[cols]` replaces the column
  list (rows, being total valuations, are unchanged by projection).
* `load_acs` (a separate module, external to `acs.py`) is an uninterpreted
  parameter: a function from its call arguments to a table.
* Exceptions (`raise ValueError`, failing `assert`) are `Except.error` with
  the message text; a Python method is embedded in state-passing style, the
  returned `ACSDataSource` component recording any writes to `self` fields.
-/

/-- A row of a PUMS table: a total valuation of column names. -/
abbrev Row := String → Int

/-- A pandas `DataFrame`: column names plus rows. -/
structure DataFrame where
  cols : List String
  rows : List Row

/-- Boolean-mask row selection `df[mask]`: keep rows satisfying `p`. -/
def DataFrame.filterRows (d : DataFrame) (p : Row → Bool) : DataFrame :=
  { cols := d.cols, rows := d.rows.filter p }

/-- Column projection `df[cs]`. Rows are total valuations, so only the
column list changes. -/
def DataFrame.select (d : DataFrame) (cs : List String) : DataFrame :=
  { cols := cs, rows := d.rows }

/-- `pd.merge(left, right, on=[key])`: inner join on `key`. The result's
columns are the left columns followed by the non-key right columns; each
left row is paired with every right row agreeing on `key`, the combined row
taking right values on the non-key right columns and left values elsewhere.
(In `get_data` the non-key right columns are disjoint from the left columns,
so pandas adds no suffixes.) -/
def DataFrame.mergeOn (left right : DataFrame) (key : String) : DataFrame :=
  let rightOnly := right.cols.filter (fun c => !(c == key))
  { cols := left.cols ++ rightOnly,
    rows := left.rows.flatMap (fun lr =>
      (right.rows.filter (fun rr => rr key == lr key)).map (fun rr =>
        fun c => if rightOnly.contains c then rr c else lr c)) }

/-- The arguments of a `load_acs` call (module `load_acs`, external to
`acs.py`). -/
structure LoadArgs where
  root_dir : String
  year : String
  states : Option (List String)
  horizon : String
  survey : String
  density : Rat
  random_seed : Int
  serial_filter_list : Option (List Int)
  download : Bool

/-- `ACSDataSource` configuration fields (`_survey_year`, `_horizon`,
`_survey`, `_root_dir` in the source). -/
structure ACSDataSource where
  survey_year : String
  horizon : String
  survey : String
  root_dir : String
deriving DecidableEq

/-- `ACSDataSource.__init__`: raises `ValueError` when the horizon is not
`1-Year` or `5-Year`, then stores the four configuration fields. -/
def ACSDataSource.init (survey_year horizon survey root_dir : String) :
    Except String ACSDataSource :=
  if ¬ (horizon ∈ (["1-Year", "5-Year"] : List String)) then
    Except.error "Horizon must be either \x221-Year\x22 or \x225-Year\x22"
  else
    Except.ok { survey_year := survey_year, horizon := horizon,
                survey := survey, root_dir := root_dir }

/-- The arguments of the first `load_acs` call in `get_data` (the survey
configured on the source; no serial filter). -/
def ACSDataSource.personArgs (self : ACSDataSource) (states : Option (List String))
    (density : Rat) (random_seed : Int) (download : Bool) : LoadArgs :=
  { root_dir := self.root_dir, year := self.survey_year, states := states,
    horizon := self.horizon, survey := self.survey, density := density,
    random_seed := random_seed, serial_filter_list := none, download := download }

/-- The arguments of the second `load_acs` call in `get_data`: survey
`household`, restricted by `serial_filter_list`; `density` and `random_seed`
are not passed and take the defaults `1` and `0`. -/
def ACSDataSource.householdArgs (self : ACSDataSource) (states : Option (List String))
    (download : Bool) (serials : List Int) : LoadArgs :=
  { root_dir := self.root_dir, year := self.survey_year, states := states,
    horizon := self.horizon, survey := "household", density := 1,
    random_seed := 0, serial_filter_list := some serials, download := download }

/-- The table bound to `data` in `get_data`. -/
def ACSDataSource.loaded_data (self : ACSDataSource) (load : LoadArgs → DataFrame)
    (states : Option (List String)) (density : Rat) (random_seed : Int)
    (download : Bool) : DataFrame :=
  load (self.personArgs states density random_seed download)

/-- `list(data['SERIALNO'])`. -/
def ACSDataSource.person_serials (self : ACSDataSource) (load : LoadArgs → DataFrame)
    (states : Option (List String)) (density : Rat) (random_seed : Int)
    (download : Bool) : List Int :=
  (self.loaded_data load states density random_seed download).rows.map
    (fun r => r "SERIALNO")

/-- The table bound to `household_data` in `get_data`. -/
def ACSDataSource.loaded_household (self : ACSDataSource) (load : LoadArgs → DataFrame)
    (states : Option (List String)) (density : Rat) (random_seed : Int)
    (download : Bool) : DataFrame :=
  load (self.householdArgs states download
    (self.person_serials load states density random_seed download))

/-- `household_cols = (set(household_data.columns) - set(data.columns))
.union({'SERIALNO'})`, as a duplicate-free list (Python sets are unordered;
only the underlying set matters downstream). -/
def household_cols_of (data hh : DataFrame) : List String :=
  let diff := hh.cols.filter (fun c => !(data.cols.contains c))
  if diff.contains "SERIALNO" then diff else diff ++ ["SERIALNO"]

/-- The column list `household_cols` computed in `get_data`. -/
def ACSDataSource.household_cols (self : ACSDataSource) (load : LoadArgs → DataFrame)
    (states : Option (List String)) (density : Rat) (random_seed : Int)
    (download : Bool) : List String :=
  household_cols_of (self.loaded_data load states density random_seed download)
    (self.loaded_household load states density random_seed download)

/-- The table bound to `join` in `get_data`:
`pd.merge(data, household_data[list(household_cols)], on=['SERIALNO'])`. -/
def ACSDataSource.joined (self : ACSDataSource) (load : LoadArgs → DataFrame)
    (states : Option (List String)) (density : Rat) (random_seed : Int)
    (download : Bool) : DataFrame :=
  DataFrame.mergeOn
    (self.loaded_data load states density random_seed download)
    ((self.loaded_household load states density random_seed download).select
      (self.household_cols load states density random_seed download))
    "SERIALNO"

/-- `ACSDataSource.get_data`, in state-passing style: the second component is
the post-call `self` (the method writes no fields, so it is the input
configuration). `Except.error` carries the message of the `ValueError`,
failing `assert`, or `AssertionError`. -/
def ACSDataSource.get_data (self : ACSDataSource) (load : LoadArgs → DataFrame)
    (states : Option (List String)) (density : Rat) (random_seed : Int)
    (join_household : Bool) (download : Bool) :
    Except String DataFrame × ACSDataSource :=
  let data := self.loaded_data load states density random_seed download
  (if join_household then
    let orig_len := data.rows.length
    if ¬ (self.survey = "person") then
      Except.error "AssertionError: self._survey == person"
    else
      let join := self.joined load states density random_seed download
      if join.rows.length = orig_len then Except.ok join
      else
        Except.error ("Lengths do not match after join: " ++
          toString join.rows.length ++ " vs " ++ toString orig_len)
  else Except.ok data, self)

/-- `adult_filter`: the sequence of row selections
`AGEP > 16`, `PINCP > 100`, `WKHP > 0`, `PWGTP >= 1`. -/
def adult_filter (data : DataFrame) : DataFrame :=
  let df := data
  let df := df.filterRows (fun r => decide (r "AGEP" > 16))
  let df := df.filterRows (fun r => decide (r "PINCP" > 100))
  let df := df.filterRows (fun r => decide (r "WKHP" > 0))
  let df := df.filterRows (fun r => decide (r "PWGTP" ≥ 1))
  df

/-- `public_coverage_filter`: row selections `AGEP < 65`, `PINCP <= 30000`. -/
def public_coverage_filter (data : DataFrame) : DataFrame :=
  let df := data
  let df := df.filterRows (fun r => decide (r "AGEP" < 65))
  let df := df.filterRows (fun r => decide (r "PINCP" ≤ 30000))
  df

/-- `travel_time_filter`: row selections `AGEP > 16`, `PWGTP >= 1`,
`ESR == 1`. -/
def travel_time_filter (data : DataFrame) : DataFrame :=
  let df := data
  let df := df.filterRows (fun r => decide (r "AGEP" > 16))
  let df := df.filterRows (fun r => decide (r "PWGTP" ≥ 1))
  let df := df.filterRows (fun r => decide (r "ESR" = 1))
  df

/-- `employment_filter`: row selections `AGEP > 16`, `AGEP < 90`,
`PWGTP >= 1`. -/
def employment_filter (data : DataFrame) : DataFrame :=
  let df := data
  let df := df.filterRows (fun r => decide (r "AGEP" > 16))
  let df := df.filterRows (fun r => decide (r "AGEP" < 90))
  let df := df.filterRows (fun r => decide (r "PWGTP" ≥ 1))
  df

/-- The `ACSMobility` preprocess
`lambda x: x.drop(x.loc[(x['AGEP'] <= 18) | (x['AGEP'] >= 35)].index)`:
with the table's default row index (unique per row), dropping the index
labels of the rows matching the mask keeps exactly the complementary rows. -/
def mobility_filter (x : DataFrame) : DataFrame :=
  x.filterRows (fun r => !(decide (r "AGEP" ≤ 18) || decide (r "AGEP" ≥ 35)))

/-- Modelled from the spec: the task-definition record of
`folktables.BasicProblem` (module `folktables/folktables.py`, not under
`src/`): feature columns with optional per-column transforms, a target
column with a transform, a protected-group column, a row pre-filter and a
whole-matrix post-transform. -/
structure BasicProblem where
  feature_transforms : List (String × Option (Int → Int))
  target : String
  target_transform : Int → Bool
  group : String
  preprocess : DataFrame → DataFrame
  postprocess : List (List Int) → List (List Rat)

/-- The external numeric collaborators used by the task constants:
`sklearn.preprocessing.scale` and `numpy.nan_to_num` (uninterpreted). -/
structure Externals where
  scale : List (List Int) → List (List Rat)
  nan_to_num : List (List Int) → Int → List (List Int)

/-- Modelled from the spec: `BasicProblem.df_to_numpy` / `features_and_target`
(module `folktables/folktables.py`, not under `src/`): apply `preprocess`;
build `X` column-by-column in declared order (identity where no transform)
and pass the assembled matrix through `postprocess`; `y` is
`target_transform` of the target column of the filtered table; `group` is
the raw group column of the filtered table. -/
def BasicProblem.features_and_target (p : BasicProblem) (df : DataFrame) :
    List (List Rat) × List Bool × List Int :=
  let filtered := p.preprocess df
  let X := p.postprocess (filtered.rows.map (fun r =>
    p.feature_transforms.map (fun ct => (ct.2.getD id) (r ct.1))))
  let y := filtered.rows.map (fun r => p.target_transform (r p.target))
  let g := filtered.rows.map (fun r => r p.group)
  (X, y, g)

/-- The `ACSIncome` task constant. -/
def ACSIncome (ext : Externals) : BasicProblem :=
  { feature_transforms := [("AGEP", none), ("COW", none), ("SCHL", none),
      ("MAR", none), ("OCCP", none), ("POBP", none), ("RELP", none),
      ("WKHP", none), ("SEX", none), ("RAC1P", none)],
    target := "PINCP",
    target_transform := fun x => decide (x > 50000),
    group := "RAC1P",
    preprocess := adult_filter,
    postprocess := ext.scale }

/-- The `ACSEmployment` task constant. -/
def ACSEmployment (ext : Externals) : BasicProblem :=
  { feature_transforms := [("AGEP", none), ("SCHL", none), ("MAR", none),
      ("RELP", none), ("DIS", none), ("ESP", none), ("CIT", none),
      ("MIG", none), ("MIL", none), ("ANC", none), ("NATIVITY", none),
      ("DEAR", none), ("DEYE", none), ("DREM", none), ("SEX", none),
      ("RAC1P", none)],
    target := "ESR",
    target_transform := fun x => decide (x = 1),
    group := "RAC1P",
    preprocess := fun x => x,
    postprocess := fun x => ext.scale (ext.nan_to_num x (-1)) }

/-- The `ACSHealthInsurance` task constant. -/
def ACSHealthInsurance (ext : Externals) : BasicProblem :=
  { feature_transforms := [("AGEP", none), ("SCHL", none), ("MAR", none),
      ("SEX", none), ("DIS", none), ("ESP", none), ("CIT", none),
      ("MIG", none), ("MIL", none), ("ANC", none), ("NATIVITY", none),
      ("DEAR", none), ("DEYE", none), ("DREM", none), ("RACAIAN", none),
      ("RACASN", none), ("RACBLK", none), ("RACNH", none), ("RACPI", none),
      ("RACSOR", none), ("RACWHT", none), ("PINCP", none), ("ESR", none),
      ("ST", none), ("FER", none)],
    target := "HINS2",
    target_transform := fun x => decide (x = 1),
    group := "RAC1P",
    preprocess := fun x => x,
    postprocess := fun x => ext.scale (ext.nan_to_num x (-1)) }

/-- The `ACSPublicCoverage` task constant. -/
def ACSPublicCoverage (ext : Externals) : BasicProblem :=
  { feature_transforms := [("AGEP", none), ("SCHL", none), ("MAR", none),
      ("SEX", none), ("DIS", none), ("ESP", none), ("CIT", none),
      ("MIG", none), ("MIL", none), ("ANC", none), ("NATIVITY", none),
      ("DEAR", none), ("DEYE", none), ("DREM", none), ("PINCP", none),
      ("ESR", none), ("ST", none), ("FER", none), ("RAC1P", none)],
    target := "PUBCOV",
    target_transform := fun x => decide (x = 1),
    group := "RAC1P",
    preprocess := public_coverage_filter,
    postprocess := fun x => ext.scale (ext.nan_to_num x (-1)) }

/-- The `ACSTravelTime` task constant. -/
def ACSTravelTime (ext : Externals) : BasicProblem :=
  { feature_transforms := [("AGEP", none), ("SCHL", none), ("MAR", none),
      ("SEX", none), ("DIS", none), ("ESP", none), ("MIG", none),
      ("RELP", none), ("RAC1P", none), ("PUMA", none), ("ST", none),
      ("CIT", none), ("OCCP", none), ("JWTR", none), ("POWPUMA", none),
      ("POVPIP", none)],
    target := "JWMNP",
    target_transform := fun x => decide (x > 20),
    group := "RAC1P",
    preprocess := travel_time_filter,
    postprocess := fun x => ext.scale (ext.nan_to_num x (-1)) }

/-- The `ACSMobility` task constant. -/
def ACSMobility (ext : Externals) : BasicProblem :=
  { feature_transforms := [("AGEP", none), ("SCHL", none), ("MAR", none),
      ("SEX", none), ("DIS", none), ("ESP", none), ("CIT", none),
      ("MIL", none), ("ANC", none), ("NATIVITY", none), ("RELP", none),
      ("DEAR", none), ("DEYE", none), ("DREM", none), ("RAC1P", none),
      ("GCL", none), ("COW", none), ("ESR", none), ("WKHP", none),
      ("JWMNP", none), ("PINCP", none)],
    target := "MIG",
    target_transform := fun x => decide (x = 1),
    group := "RAC1P",
    preprocess := mobility_filter,
    postprocess := fun x => ext.scale (ext.nan_to_num x (-1)) }

/-- The `ACSEmploymentFiltered` task constant. -/
def ACSEmploymentFiltered (ext : Externals) : BasicProblem :=
  { feature_transforms := [("AGEP", none), ("SCHL", none), ("MAR", none),
      ("SEX", none), ("DIS", none), ("ESP", none), ("MIG", none),
      ("CIT", none), ("MIL", none), ("ANC", none), ("NATIVITY", none),
      ("RELP", none), ("DEAR", none), ("DEYE", none), ("DREM", none),
      ("RAC1P", none), ("GCL", none)],
    target := "ESR",
    target_transform := fun x => decide (x = 1),
    group := "RAC1P",
    preprocess := employment_filter,
    postprocess := fun x => ext.scale (ext.nan_to_num x (-1)) }

/-- The `ACSIncomePovertyRatio` task constant. -/
def ACSIncomePovertyRatio (ext : Externals) : BasicProblem :=
  { feature_transforms := [("AGEP", none), ("SCHL", none), ("MAR", none),
      ("SEX", none), ("DIS", none), ("ESP", none), ("MIG", none),
      ("CIT", none), ("MIL", none), ("ANC", none), ("NATIVITY", none),
      ("RELP", none), ("DEAR", none), ("DEYE", none), ("DREM", none),
      ("RAC1P", none), ("GCL", none), ("ESR", none), ("OCCP", none),
      ("WKHP", none)],
    target := "POVPIP",
    target_transform := fun x => decide (x < 250),
    group := "RAC1P",
    preprocess := fun x => x,
    postprocess := fun x => ext.scale (ext.nan_to_num x (-1)) }

/-! ### Helper lemmas about row filtering -/

theorem DataFrame.filterRows_cols (d : DataFrame) (p : Row → Bool) :
    (d.filterRows p).cols = d.cols := rfl

theorem DataFrame.filterRows_filterRows (d : DataFrame) (p q : Row → Bool) :
    (d.filterRows p).filterRows q = d.filterRows (fun r => q r && p r) := by
  cases d with
  | mk cols rows => simp [DataFrame.filterRows, List.filter_filter]

theorem DataFrame.filterRows_idem (d : DataFrame) (p : Row → Bool) :
    (d.filterRows p).filterRows p = d.filterRows p := by
  cases d with
  | mk cols rows =>
    simp only [DataFrame.filterRows, DataFrame.mk.injEq, true_and]
    rw [List.filter_eq_self]
    intro a ha
    exact List.of_mem_filter ha

/-- The conjunction of the four `adult_filter` conditions, associated the
way the chained filters compose. -/
def adultPred : Row → Bool := fun r =>
  decide (r "PWGTP" ≥ 1) && (decide (r "WKHP" > 0) &&
    (decide (r "PINCP" > 100) && decide (r "AGEP" > 16)))

theorem adult_filter_eq (d : DataFrame) :
    adult_filter d = d.filterRows adultPred := by
  simp only [adult_filter, DataFrame.filterRows_filterRows]
  rfl

/-- The conjunction of the two `public_coverage_filter` conditions. -/
def publicCoveragePred : Row → Bool := fun r =>
  decide (r "PINCP" ≤ 30000) && decide (r "AGEP" < 65)

theorem public_coverage_filter_eq (d : DataFrame) :
    public_coverage_filter d = d.filterRows publicCoveragePred := by
  simp only [public_coverage_filter, DataFrame.filterRows_filterRows]
  rfl

/-- The conjunction of the three `travel_time_filter` conditions. -/
def travelTimePred : Row → Bool := fun r =>
  decide (r "ESR" = 1) && (decide (r "PWGTP" ≥ 1) && decide (r "AGEP" > 16))

theorem travel_time_filter_eq (d : DataFrame) :
    travel_time_filter d = d.filterRows travelTimePred := by
  simp only [travel_time_filter, DataFrame.filterRows_filterRows]
  rfl

/-- The conjunction of the three `employment_filter` conditions. -/
def employmentPred : Row → Bool := fun r =>
  decide (r "PWGTP" ≥ 1) && (decide (r "AGEP" < 90) && decide (r "AGEP" > 16))

theorem employment_filter_eq (d : DataFrame) :
    employment_filter d = d.filterRows employmentPred := by
  simp only [employment_filter, DataFrame.filterRows_filterRows]
  rfl

/-! ### Claims about the task preprocess filters -/

/-- C6: applying any exported task's `preprocess` twice yields the same
table as applying it once: this holds for `adult_filter`,
`public_coverage_filter`, `travel_time_filter`, `employment_filter`, the
`ACSMobility` age-drop filter, and the identity preprocess (here that of
`ACSEmployment`). -/
theorem claim_C6_preprocess_idempotent (ext : Externals) (d : DataFrame) :
    adult_filter (adult_filter d) = adult_filter d ∧
    public_coverage_filter (public_coverage_filter d) = public_coverage_filter d ∧
    travel_time_filter (travel_time_filter d) = travel_time_filter d ∧
    employment_filter (employment_filter d) = employment_filter d ∧
    (ACSMobility ext).preprocess ((ACSMobility ext).preprocess d) =
      (ACSMobility ext).preprocess d ∧
    (ACSEmployment ext).preprocess ((ACSEmployment ext).preprocess d) =
      (ACSEmployment ext).preprocess d := by
  refine ⟨?_, ?_, ?_, ?_, ?_, rfl⟩
  · rw [adult_filter_eq (adult_filter d), adult_filter_eq d,
      DataFrame.filterRows_idem]
  · rw [public_coverage_filter_eq (public_coverage_filter d),
      public_coverage_filter_eq d, DataFrame.filterRows_idem]
  · rw [travel_time_filter_eq (travel_time_filter d), travel_time_filter_eq d,
      DataFrame.filterRows_idem]
  · rw [employment_filter_eq (employment_filter d), employment_filter_eq d,
      DataFrame.filterRows_idem]
  · exact DataFrame.filterRows_idem d _

/-- C7: every exported task's `preprocess` is a pure row filter: the column
list is unchanged, the output rows are a sublist of the input rows (each
output row is an input row, values untouched, original order kept, nothing
added), and the output row count is at most the input row count. -/
theorem claim_C7_preprocess_pure_row_filter (ext : Externals) (d : DataFrame) :
    ((adult_filter d).cols = d.cols ∧ (adult_filter d).rows.Sublist d.rows ∧
      (adult_filter d).rows.length ≤ d.rows.length) ∧
    ((public_coverage_filter d).cols = d.cols ∧
      (public_coverage_filter d).rows.Sublist d.rows ∧
      (public_coverage_filter d).rows.length ≤ d.rows.length) ∧
    ((travel_time_filter d).cols = d.cols ∧
      (travel_time_filter d).rows.Sublist d.rows ∧
      (travel_time_filter d).rows.length ≤ d.rows.length) ∧
    ((employment_filter d).cols = d.cols ∧
      (employment_filter d).rows.Sublist d.rows ∧
      (employment_filter d).rows.length ≤ d.rows.length) ∧
    (((ACSMobility ext).preprocess d).cols = d.cols ∧
      ((ACSMobility ext).preprocess d).rows.Sublist d.rows ∧
      ((ACSMobility ext).preprocess d).rows.length ≤ d.rows.length) ∧
    (((ACSEmployment ext).preprocess d).cols = d.cols ∧
      ((ACSEmployment ext).preprocess d).rows.Sublist d.rows ∧
      ((ACSEmployment ext).preprocess d).rows.length ≤ d.rows.length) := by
  refine ⟨?_, ?_, ?_, ?_, ?_, rfl, List.Sublist.refl _, le_refl _⟩
  · rw [adult_filter_eq d]
    exact ⟨rfl, List.filter_sublist _, (List.filter_sublist _).length_le⟩
  · rw [public_coverage_filter_eq d]
    exact ⟨rfl, List.filter_sublist _, (List.filter_sublist _).length_le⟩
  · rw [travel_time_filter_eq d]
    exact ⟨rfl, List.filter_sublist _, (List.filter_sublist _).length_le⟩
  · rw [employment_filter_eq d]
    exact ⟨rfl, List.filter_sublist _, (List.filter_sublist _).length_le⟩
  · exact ⟨rfl, List.filter_sublist _, (List.filter_sublist _).length_le⟩

/-- C10: `public_coverage_filter` keeps exactly the rows with `AGEP < 65`
and `PINCP <= 30000` — a row is in the output iff it is in the input and
satisfies both conditions — and the surviving rows keep their original
relative order (the output rows are a sublist of the input rows). -/
theorem claim_C10_public_coverage_filter (d : DataFrame) :
    (∀ r : Row, r ∈ (public_coverage_filter d).rows ↔
      r ∈ d.rows ∧ r "AGEP" < 65 ∧ r "PINCP" ≤ 30000) ∧
    (public_coverage_filter d).rows.Sublist d.rows := by
  constructor
  · intro r
    rw [public_coverage_filter_eq d]
    show r ∈ d.rows.filter publicCoveragePred ↔ _
    rw [List.mem_filter]
    simp only [publicCoveragePred, Bool.and_eq_true, decide_eq_true_eq]
    tauto
  · rw [public_coverage_filter_eq d]
    exact List.filter_sublist _

/-! ### Claims about the data-source configuration -/

/-- C2 counterexample: constructing an `ACSDataSource` with the invalid
survey value `"not-a-survey"` (and a valid horizon) does not raise — the
constructor returns the configured instance, so bad survey values are not
rejected at construction time. -/
theorem claim_C2_counterexample :
    ACSDataSource.init "2018" "1-Year" "not-a-survey" "data" =
      Except.ok { survey_year := "2018", horizon := "1-Year",
                  survey := "not-a-survey", root_dir := "data" } := by
  rfl

/-- C2 amended: the constructor raises exactly when the horizon is not
`1-Year` or `5-Year`; the survey value is not validated at construction
(any survey string is accepted whenever the horizon is valid). -/
theorem claim_C2_amended (sy h s rd : String) :
    ((∃ e, ACSDataSource.init sy h s rd = Except.error e) ↔
      ¬ (h = "1-Year" ∨ h = "5-Year")) ∧
    (h = "1-Year" ∨ h = "5-Year" →
      ACSDataSource.init sy h s rd =
        Except.ok { survey_year := sy, horizon := h,
                    survey := s, root_dir := rd }) := by
  have hmem : h ∈ (["1-Year", "5-Year"] : List String) ↔
      (h = "1-Year" ∨ h = "5-Year") := by simp
  by_cases hh : h = "1-Year" ∨ h = "5-Year"
  · rw [ACSDataSource.init, if_neg (by simp [hmem.mpr hh])]
    refine ⟨⟨?_, ?_⟩, fun _ => rfl⟩
    · rintro ⟨e, he⟩
      cases he
    · intro hc
      exact absurd hh hc
  · rw [ACSDataSource.init, if_pos (by simpa [hmem] using hh)]
    refine ⟨⟨fun _ => hh, fun _ => ⟨_, rfl⟩⟩, fun hc => absurd hc hh⟩

/-- C2 amended, witness: with the valid horizon `5-Year` and an arbitrary
survey string, construction succeeds. -/
theorem claim_C2_amended_witness :
    ACSDataSource.init "2018" "5-Year" "person" "data" =
      Except.ok { survey_year := "2018", horizon := "5-Year",
                  survey := "person", root_dir := "data" } :=
  (claim_C2_amended "2018" "5-Year" "person" "data").2 (Or.inr rfl)

/-- C8: `get_data` never changes the configuration fields — in the
state-passing embedding the post-call `self` equals the pre-call `self`, for
every argument combination and whether the call returns or fails — and a
second identical call (run from the post-state of the first) produces the
same result as the first. -/
theorem claim_C8_get_data_stateless (self : ACSDataSource)
    (load : LoadArgs → DataFrame) (states : Option (List String))
    (density : Rat) (random_seed : Int) (join_household download : Bool) :
    (self.get_data load states density random_seed join_household download).2 =
      self ∧
    (((self.get_data load states density random_seed join_household
        download).2).get_data load states density random_seed join_household
        download).1 =
      (self.get_data load states density random_seed join_household
        download).1 :=
  ⟨rfl, rfl⟩

/-- C9: every exported task definition uses `RAC1P` as its protected-group
column, and the group vector it returns is the raw `RAC1P` column of the
preprocessed (filtered) table. -/
theorem claim_C9_group_column_RAC1P (ext : Externals) (d : DataFrame) :
    ((ACSIncome ext).group = "RAC1P" ∧
      ((ACSIncome ext).features_and_target d).2.2 =
        ((ACSIncome ext).preprocess d).rows.map (fun r => r "RAC1P")) ∧
    ((ACSEmployment ext).group = "RAC1P" ∧
      ((ACSEmployment ext).features_and_target d).2.2 =
        ((ACSEmployment ext).preprocess d).rows.map (fun r => r "RAC1P")) ∧
    ((ACSHealthInsurance ext).group = "RAC1P" ∧
      ((ACSHealthInsurance ext).features_and_target d).2.2 =
        ((ACSHealthInsurance ext).preprocess d).rows.map (fun r => r "RAC1P")) ∧
    ((ACSPublicCoverage ext).group = "RAC1P" ∧
      ((ACSPublicCoverage ext).features_and_target d).2.2 =
        ((ACSPublicCoverage ext).preprocess d).rows.map (fun r => r "RAC1P")) ∧
    ((ACSTravelTime ext).group = "RAC1P" ∧
      ((ACSTravelTime ext).features_and_target d).2.2 =
        ((ACSTravelTime ext).preprocess d).rows.map (fun r => r "RAC1P")) ∧
    ((ACSMobility ext).group = "RAC1P" ∧
      ((ACSMobility ext).features_and_target d).2.2 =
        ((ACSMobility ext).preprocess d).rows.map (fun r => r "RAC1P")) ∧
    ((ACSEmploymentFiltered ext).group = "RAC1P" ∧
      ((ACSEmploymentFiltered ext).features_and_target d).2.2 =
        ((ACSEmploymentFiltered ext).preprocess d).rows.map
          (fun r => r "RAC1P")) ∧
    ((ACSIncomePovertyRatio ext).group = "RAC1P" ∧
      ((ACSIncomePovertyRatio ext).features_and_target d).2.2 =
        ((ACSIncomePovertyRatio ext).preprocess d).rows.map
          (fun r => r "RAC1P")) :=
  ⟨⟨rfl, rfl⟩, ⟨rfl, rfl⟩, ⟨rfl, rfl⟩, ⟨rfl, rfl⟩, ⟨rfl, rfl⟩, ⟨rfl, rfl⟩,
    ⟨rfl, rfl⟩, ⟨rfl, rfl⟩⟩

/-! ### The ACSIncome worked example -/

theorem length_sub_helper {A B n : Nat} (h1 : A = 1) (h2 : n = A + B)
    (h3 : n = 5) : B = 4 := by omega

/-- C5: for the `ACSIncome` task, on any 5-row table whose rows all satisfy
`PINCP > 100`, `WKHP > 0` and `PWGTP >= 1`, with exactly one row at
`AGEP = 15` and the rest at `AGEP > 16`, the `adult_filter`-ed table has 4
rows, `y` has 4 boolean entries, and each entry of `y` is `PINCP > 50000`
of the corresponding surviving row. -/
theorem claim_C5_income_example (ext : Externals) (d : DataFrame)
    (hlen : d.rows.length = 5)
    (hconds : ∀ r ∈ d.rows, r "PINCP" > 100 ∧ r "WKHP" > 0 ∧ r "PWGTP" ≥ 1)
    (hage : ∀ r ∈ d.rows, r "AGEP" = 15 ∨ r "AGEP" > 16)
    (hone : d.rows.countP (fun r => decide (r "AGEP" = 15)) = 1) :
    (adult_filter d).rows.length = 4 ∧
    (((ACSIncome ext).features_and_target d).2.1).length = 4 ∧
    ((ACSIncome ext).features_and_target d).2.1 =
      (adult_filter d).rows.map (fun r => decide (r "PINCP" > 50000)) := by
  have hfc : d.rows.filter adultPred =
      d.rows.filter (fun r => !(decide (r "AGEP" = 15))) := by
    apply List.filter_congr
    intro r hr
    rcases hconds r hr with ⟨h1, h2, h3⟩
    rcases hage r hr with h4 | h4
    · simp [adultPred, h4]
    · have h5 : r "AGEP" ≠ 15 := by
        intro he
        rw [he] at h4
        exact absurd h4 (by decide)
      simp [adultPred, h1, h2, h3, h4, h5]
  have hone' : (d.rows.filter (fun r => decide (r "AGEP" = 15))).length = 1 := by
    rw [← List.countP_eq_length_filter]
    exact hone
  have htot : d.rows.length =
      (d.rows.filter (fun r => decide (r "AGEP" = 15))).length +
      (d.rows.filter (fun r => !(decide (r "AGEP" = 15)))).length :=
    List.length_eq_length_filter_add (fun r => decide (r "AGEP" = 15))
  have hlen4 : (adult_filter d).rows.length = 4 := by
    rw [adult_filter_eq]
    show (d.rows.filter adultPred).length = 4
    rw [hfc]
    exact length_sub_helper hone' htot hlen
  refine ⟨hlen4, ?_, rfl⟩
  show ((adult_filter d).rows.map (fun r => decide (r "PINCP" > 50000))).length = 4
  rw [List.length_map, hlen4]

/-- A concrete row for the C5 witness table. -/
def c5row (a p : Int) : Row := fun c =>
  if c = "AGEP" then a else if c = "PINCP" then p else 200

/-- The C5 witness table: five rows, one with `AGEP = 15`. -/
def c5df : DataFrame :=
  { cols := ["AGEP", "PINCP", "WKHP", "PWGTP", "RAC1P"],
    rows := [c5row 15 60000, c5row 20 60000, c5row 30 40000,
             c5row 40 200, c5row 50 70000] }

/-- Concrete external collaborators for the C5 witness. -/
def c5ext : Externals :=
  { scale := fun m => m.map (fun row => row.map (fun i => (i : Rat))),
    nan_to_num := fun m _ => m }

/-- C5 witness: the worked example instantiated at a concrete 5-row table. -/
theorem claim_C5_income_example_witness :
    (adult_filter c5df).rows.length = 4 ∧
    (((ACSIncome c5ext).features_and_target c5df).2.1).length = 4 ∧
    ((ACSIncome c5ext).features_and_target c5df).2.1 =
      (adult_filter c5df).rows.map (fun r => decide (r "PINCP" > 50000)) :=
  claim_C5_income_example c5ext c5df (by decide) (by decide) (by decide)
    (by decide)

/-! ### Claims about the person/household join -/

theorem mergeOn_select_cols_mem (data hh : DataFrame)
    (hser : "SERIALNO" ∈ data.cols) (c : String) :
    c ∈ (DataFrame.mergeOn data (hh.select (household_cols_of data hh))
        "SERIALNO").cols ↔
      c ∈ data.cols ∨ (c ∈ hh.cols ∧ c ∉ data.cols) := by
  have hdiffmem : ∀ x, x ∈ hh.cols.filter (fun y => !(data.cols.contains y)) ↔
      (x ∈ hh.cols ∧ x ∉ data.cols) := by
    intro x
    simp [List.mem_filter]
  have hcontains : (hh.cols.filter
      (fun y => !(data.cols.contains y))).contains "SERIALNO" = false := by
    rw [Bool.eq_false_iff]
    intro hc
    have hm : "SERIALNO" ∈ hh.cols.filter (fun y => !(data.cols.contains y)) := by
      simpa using hc
    exact ((hdiffmem _).1 hm).2 hser
  have hfe : (hh.cols.filter (fun y => !(data.cols.contains y))).filter
      (fun y => !(y == "SERIALNO")) =
      hh.cols.filter (fun y => !(data.cols.contains y)) := by
    rw [List.filter_eq_self]
    intro a ha
    have hne : a ≠ "SERIALNO" := by
      intro he
      subst he
      exact ((hdiffmem _).1 ha).2 hser
    simpa using hne
  simp only [DataFrame.mergeOn, DataFrame.select, household_cols_of, hcontains,
    if_false, Bool.false_eq_true]
  rw [List.filter_append, hfe]
  simp [List.mem_append, hdiffmem]

/-- C4: requesting the household join on a data source whose survey is not
`person` fails fatally (the `assert self._survey == 'person'`) before any
merge is attempted, for every load function and argument combination. -/
theorem claim_C4_join_requires_person_survey (self : ACSDataSource)
    (load : LoadArgs → DataFrame) (states : Option (List String))
    (density : Rat) (random_seed : Int) (download : Bool)
    (h : self.survey ≠ "person") :
    (self.get_data load states density random_seed true download).1 =
      Except.error "AssertionError: self._survey == person" := by
  simp only [ACSDataSource.get_data, if_true]
  rw [if_pos h]

/-- Witness rows/tables for the join claims: one person row with serial 7. -/
def wpRow : Row := fun c => if c = "SERIALNO" then 7 else 30

/-- One household row with serial 7. -/
def whRow : Row := fun c => if c = "SERIALNO" then 7 else 3

/-- A concrete load function: household requests get the one-row household
table, anything else the one-row person table. -/
def wLoad : LoadArgs → DataFrame := fun a =>
  if a.survey = "household" then
    { cols := ["SERIALNO", "NP"], rows := [whRow] }
  else
    { cols := ["SERIALNO", "AGEP"], rows := [wpRow] }

/-- A person-survey data source for the join witnesses. -/
def wSrc : ACSDataSource :=
  { survey_year := "2018", horizon := "1-Year", survey := "person",
    root_dir := "data" }

/-- A household-survey data source for the C4 witness. -/
def wSrcH : ACSDataSource :=
  { survey_year := "2018", horizon := "1-Year", survey := "household",
    root_dir := "data" }

/-- C4 witness: on the household-survey source, `get_data` with
`join_household=True` returns the assertion failure. -/
theorem claim_C4_join_requires_person_survey_witness :
    (wSrcH.get_data wLoad none 1 0 true false).1 =
      Except.error "AssertionError: self._survey == person" :=
  claim_C4_join_requires_person_survey wSrcH wLoad none 1 0 false (by decide)

/-- C1: with `join_household=True` on a person-survey source, a row-count
mismatch between the merged table and the pre-join person table makes the
call fail fatally with an assertion message naming the two lengths, and the
call never returns a table whose row count differs from the pre-join person
row count: whenever it returns `ok t`, `t` has exactly the person table's
row count. -/
theorem claim_C1_join_row_count (self : ACSDataSource)
    (load : LoadArgs → DataFrame) (states : Option (List String))
    (density : Rat) (random_seed : Int) (download : Bool)
    (hp : self.survey = "person") :
    ((self.joined load states density random_seed download).rows.length ≠
        (self.loaded_data load states density random_seed
          download).rows.length →
      (self.get_data load states density random_seed true download).1 =
        Except.error ("Lengths do not match after join: " ++
          toString (self.joined load states density random_seed
            download).rows.length ++ " vs " ++
          toString (self.loaded_data load states density random_seed
            download).rows.length)) ∧
    ∀ t, (self.get_data load states density random_seed true download).1 =
        Except.ok t →
      t.rows.length =
        (self.loaded_data load states density random_seed
          download).rows.length := by
  simp only [ACSDataSource.get_data, if_true]
  rw [if_neg (by simp [hp])]
  constructor
  · intro hne
    rw [if_neg hne]
  · intro t ht
    by_cases he : (self.joined load states density random_seed
        download).rows.length =
        (self.loaded_data load states density random_seed
          download).rows.length
    · rw [if_pos he] at ht
      cases ht
      exact he
    · rw [if_neg he] at ht
      cases ht

/-- The joined table of the witness scenario (one person row, one matching
household row). -/
def wJoin : DataFrame := wSrc.joined wLoad none 1 0 false

/-- C1 witness: in the concrete scenario the call returns the join and its
row count equals the pre-join person row count. -/
theorem claim_C1_join_row_count_witness :
    wJoin.rows.length =
      (wSrc.loaded_data wLoad none 1 0 false).rows.length :=
  (claim_C1_join_row_count wSrc wLoad none 1 0 false rfl).2 wJoin rfl

/-- C3: whenever `get_data` with `join_household=True` returns a table `t`,
`t` is the merge on the serial-number column `SERIALNO` of the person table
with the column-restricted household table; the household table is loaded
restricted (via `serial_filter_list`) to the serial numbers of the loaded
person table; and (when the person table has a `SERIALNO` column) `t`'s
column set is the person columns plus exactly the household columns not
already present among the person columns. -/
theorem claim_C3_join_columns (self : ACSDataSource)
    (load : LoadArgs → DataFrame) (states : Option (List String))
    (density : Rat) (random_seed : Int) (download : Bool) (t : DataFrame)
    (hok : (self.get_data load states density random_seed true download).1 =
      Except.ok t) :
    t = DataFrame.mergeOn
        (self.loaded_data load states density random_seed download)
        ((self.loaded_household load states density random_seed
          download).select
          (household_cols_of
            (self.loaded_data load states density random_seed download)
            (self.loaded_household load states density random_seed download)))
        "SERIALNO" ∧
    self.loaded_household load states density random_seed download =
      load (self.householdArgs states download
        ((self.loaded_data load states density random_seed
          download).rows.map (fun r => r "SERIALNO"))) ∧
    ("SERIALNO" ∈ (self.loaded_data load states density random_seed
        download).cols →
      ∀ c, c ∈ t.cols ↔
        c ∈ (self.loaded_data load states density random_seed
          download).cols ∨
        (c ∈ (self.loaded_household load states density random_seed
          download).cols ∧
         c ∉ (self.loaded_data load states density random_seed
          download).cols)) := by
  have hjoin : t = self.joined load states density random_seed download := by
    simp only [ACSDataSource.get_data, if_true] at hok
    by_cases hp : self.survey = "person"
    · rw [if_neg (by simp [hp])] at hok
      by_cases he : (self.joined load states density random_seed
          download).rows.length =
          (self.loaded_data load states density random_seed
            download).rows.length
      · rw [if_pos he] at hok
        cases hok
        rfl
      · rw [if_neg he] at hok
        cases hok
    · rw [if_pos hp] at hok
      cases hok
  refine ⟨hjoin, rfl, ?_⟩
  intro hser c
  rw [hjoin]
  exact mergeOn_select_cols_mem
    (self.loaded_data load states density random_seed download)
    (self.loaded_household load states density random_seed download) hser c

/-- C3 witness: the concrete scenario, where the returned table is the
`SERIALNO` merge and its column set is `SERIALNO`, `AGEP` (person) plus the
household-only column `NP`. -/
theorem claim_C3_join_columns_witness :
    (wJoin = DataFrame.mergeOn (wSrc.loaded_data wLoad none 1 0 false)
        ((wSrc.loaded_household wLoad none 1 0 false).select
          (household_cols_of (wSrc.loaded_data wLoad none 1 0 false)
            (wSrc.loaded_household wLoad none 1 0 false))) "SERIALNO" ∧
      wSrc.loaded_household wLoad none 1 0 false =
        wLoad (wSrc.householdArgs none false
          ((wSrc.loaded_data wLoad none 1 0 false).rows.map
            (fun r => r "SERIALNO"))) ∧
      ("SERIALNO" ∈ (wSrc.loaded_data wLoad none 1 0 false).cols →
        ∀ c, c ∈ wJoin.cols ↔
          c ∈ (wSrc.loaded_data wLoad none 1 0 false).cols ∨
          (c ∈ (wSrc.loaded_household wLoad none 1 0 false).cols ∧
           c ∉ (wSrc.loaded_data wLoad none 1 0 false).cols))) :=
  claim_C3_join_columns wSrc wLoad none 1 0 false wJoin rfl
